import Mathlib

/-!
Verification development for the load-flex dispatch simulation engine.

Shallow embedding conventions:
* Python floats are modelled as rationals (ℚ).
* `datetime` values are modelled as integers (minutes since an epoch) and
  `timedelta` values as integers; only ordering and addition are used.
* A `timedelta` divided by `timedelta(hours=1)` is modelled by passing the
  sample rate directly in hours as a rational.
* Methods that mutate an object are modelled as functions returning the
  updated object (and the method result where there is one).
* Methods that can raise are modelled with `Except String`.
-/

namespace LoadFlex

/-- Embeds `Dispatch` from `src/equipment/equipment.py`: charge and discharge
as non-negative floats, mutually exclusive. -/
structure Dispatch where
  charge : ℚ
  discharge : ℚ
  deriving DecidableEq, Repr

/-- `Dispatch.net_value`: positive indicates discharge, negative charge. -/
def Dispatch.net_value (d : Dispatch) : ℚ :=
  d.discharge - d.charge

/-- `Dispatch.no_dispatch`: the net value is zero. -/
def Dispatch.no_dispatch (d : Dispatch) : Prop :=
  d.net_value = 0

instance (d : Dispatch) : Decidable d.no_dispatch := by
  unfold Dispatch.no_dispatch; infer_instance

/-- `Dispatch.from_raw_float`: positive raw value is discharge, negative is
charge. -/
def Dispatch.from_raw_float (dispatch_value : ℚ) : Dispatch :=
  { charge := -(min 0 dispatch_value), discharge := max 0 dispatch_value }

/-- `Dispatch.validate` from `src/equipment/equipment.py` (lines 35-50): raises
`ValueError` on a negative charge or discharge, then raises when charge and
discharge are not mutually exclusive; otherwise returns normally. -/
def Dispatch.validate (d : Dispatch) : Except String Unit :=
  if d.charge < 0 ∨ d.discharge < 0 then
    Except.error "DispatchProposal attributes charge or discharge cannot be negative"
  else if ¬ (min d.charge d.discharge = 0) then
    Except.error "Dispatch charge and discharge cannot both be greater than 0.0"
  else
    Except.ok ()

/-- Embeds `Battery` (with the inherited `Storage` fields) from
`src/storage.py` / `src/equipment.py`. -/
structure Battery where
  nominal_discharge_capacity : ℚ
  nominal_charge_capacity : ℚ
  storage_capacity : ℚ
  round_trip_efficiency : ℚ
  state_of_charge : ℚ
  cycle_count : ℚ
  deriving DecidableEq, Repr

/-- `Storage.available_energy` (`src/equipment.py` lines 93-95). -/
def Battery.available_energy (b : Battery) : ℚ :=
  b.state_of_charge * b.storage_capacity

/-- `Storage.available_storage` (`src/equipment.py` lines 97-99). -/
def Battery.available_storage (b : Battery) : ℚ :=
  b.storage_capacity * (1 - b.state_of_charge)

/-- `Battery.update_state` from `src/storage.py`: efficiency applied on the
charge leg only; cycle count accumulates positive state-of-charge deltas. -/
def Battery.update_state (b : Battery) (dispatch : Dispatch) : Battery :=
  let delta_energy := b.round_trip_efficiency * dispatch.charge - dispatch.discharge
  let delta_state_of_charge := delta_energy / b.storage_capacity
  { b with
    cycle_count :=
      if delta_state_of_charge > 0 then b.cycle_count + delta_state_of_charge
      else b.cycle_count,
    state_of_charge := b.state_of_charge + delta_state_of_charge }

/-- `Battery.dispatch_request` from `src/storage.py` (lines 42-57): clip the
proposal to rate and state-of-charge limits, update state, and return the
realized dispatch.  `time_step_hours` is `sample_rate / timedelta(hours=1)`. -/
def Battery.dispatch_request (b : Battery) (proposal : Dispatch)
    (time_step_hours : ℚ) : Dispatch × Battery :=
  let dispatch : Dispatch :=
    { charge :=
        min proposal.charge
          (min (b.nominal_charge_capacity * time_step_hours) b.available_storage),
      discharge :=
        min proposal.discharge
          (min (b.nominal_discharge_capacity * time_step_hours) b.available_energy) }
  (dispatch, b.update_state dispatch)

/-- One step of a run: feed one (proposal, sample-rate) pair to the battery. -/
def Battery.dispatch_step (b : Battery) (x : Dispatch × ℚ) : Battery :=
  (b.dispatch_request x.1 x.2).2

/-- A finite sequence of dispatch requests against a battery. -/
def Battery.run_dispatches (b : Battery) (l : List (Dispatch × ℚ)) : Battery :=
  l.foldl Battery.dispatch_step b

/-- `np.cumsum`: running sums of a list. -/
def cumsum (l : List ℚ) : List ℚ :=
  (l.scanl (· + ·) 0).tail

/-- numpy integer indexing on a 1-d array: a negative index counts from the
end of the array (`a[-1]` is the last element). -/
def np_get (l : List ℚ) (i : ℤ) : ℚ :=
  if i < 0 then l.getD ((l.length : ℤ) + i).toNat 0 else l.getD i.toNat 0

/-- `arr.max()` on a non-empty numpy array (0 as junk value on empty input,
where numpy raises). -/
def np_max : List ℚ → ℚ
  | [] => 0
  | x :: xs => xs.foldl max x

/-- `arr.min()` on a non-empty numpy array (0 as junk value on empty input,
where numpy raises). -/
def np_min : List ℚ → ℚ
  | [] => 0
  | x :: xs => xs.foldl min x

/-- `np.searchsorted(l, v)` with the default left side, on a sorted array:
the insertion index, which equals the number of elements strictly below the
key. -/
def searchsorted_left (l : List ℚ) (v : ℚ) : ℕ :=
  l.countP (fun x => decide (x < v))

namespace PeakShave

/-- `PeakShave.cumulative_peak_areas` from `src/optimisers.py`:
`np.cumsum(np.flip((np.append(np.diff(a), 0)) * [n-1, ..., 0]))`. -/
def cumulative_peak_areas (sorted_arr : List ℚ) : List ℚ :=
  let delta_energy :=
    List.zipWith (fun a b => b - a) sorted_arr sorted_arr.tail ++ [0]
  let delta_area :=
    List.zipWith (fun e (r : ℕ) => e * (r : ℚ)) delta_energy
      (List.range sorted_arr.length).reverse
  cumsum delta_area.reverse

/-- `PeakShave.peak_area_idx` from `src/optimisers.py` (lines 22-28):
`np.searchsorted(peak_areas, area) - 1`, capped at `max_idx` when that
argument is truthy (present and non-zero). -/
def peak_area_idx (peak_areas : List ℚ) (area : ℚ) (max_idx : Option ℤ) : ℤ :=
  let idx : ℤ := (searchsorted_left peak_areas area : ℤ) - 1
  match max_idx with
  | some m => if m ≠ 0 then min idx m else idx
  | none => idx

/-- `PeakShave.peak_shave` from `src/optimisers.py` (lines 47-55): sort
ascending, build cumulative peak areas, binary-search the budget, subtract
one, and read the threshold out of the descending array (numpy indexing, so
index `-1` wraps to the end). -/
def peak_shave (demand_arr : List ℚ) (area : ℚ) : ℚ :=
  let sorted_arr := List.insertionSort (· ≤ ·) demand_arr
  let peak_areas := cumulative_peak_areas sorted_arr
  let index := peak_area_idx peak_areas area none
  np_get sorted_arr.reverse index

end PeakShave

namespace TOUShiftingCalculator

/-- `TOUShiftingCalculator.cap_area`: area above the window minimum. -/
def cap_area (arr : List ℚ) : ℚ :=
  (arr.map (fun x => x - np_min arr)).sum

/-- `TOUShiftingCalculator.cap_height`: height of the cap above the window
minimum. -/
def cap_height (arr : List ℚ) : ℚ :=
  np_max (arr.map (fun x => x - np_min arr))

/-- `TOUShiftingCalculator.additional_depth`: surplus budget spread evenly
over the window. -/
def additional_depth (arr : List ℚ) (area_required : ℚ) : ℚ :=
  area_required / (arr.length : ℚ)

/-- `TOUShiftingCalculator.calculate_setpoint` from `src/optimisers.py`
(lines 82-98).  Note the Python truthiness test `if area:` — a zero budget
skips the whole computation and returns the window maximum. -/
def calculate_setpoint (demand_arr : List ℚ) (area : ℚ) : ℚ :=
  if area ≠ 0 then
    let additional_area_required := area - cap_area demand_arr
    if additional_area_required > 0 then
      np_max demand_arr -
        (additional_depth demand_arr additional_area_required + cap_height demand_arr)
    else
      PeakShave.peak_shave demand_arr area
  else
    np_max demand_arr

end TOUShiftingCalculator

/-- Area of the demand curve above a threshold, `Σ max(0, d − θ)` — the
quantity the specification uses to state peak-shave correctness. -/
def area_above (arr : List ℚ) (θ : ℚ) : ℚ :=
  (arr.map (fun d => max 0 (d - θ))).sum

/-- Embeds `SetPointProposal` from `src/dispatch_control/setpoints.py`: each
slot defaults to `None` (unset). -/
structure SetPointProposal where
  universal : Option ℚ
  charge : Option ℚ
  discharge : Option ℚ
  deriving DecidableEq, Repr

/-- Embeds `SetPoints` from `src/dispatch_control/setpoints.py`.  The setter
schedule and the forecasters are opaque payloads (`σ`, `φ`): `set_setpoints`
never reads or writes them. -/
structure SetPoints (σ φ : Type) where
  setter_schedule : σ
  forecasters : φ
  charge_setpoint : ℚ
  discharge_setpoint : ℚ
  universal_setpoint : ℚ

/-- Python truthiness of an `Optional[float]`: `None` and `0.0` are falsy. -/
def opt_truthy : Option ℚ → Bool
  | none => false
  | some v => v != 0

/-- `SetPoints.set_setpoints` (lines 124-134 of
`src/dispatch_control/setpoints.py`): each slot is guarded by Python
truthiness of the proposal slot (`if setpoint_proposal.charge:` and
friends); the unused `dt` parameter is omitted. -/
def SetPoints.set_setpoints {σ φ : Type} (s : SetPoints σ φ)
    (setpoint_proposal : SetPointProposal) : SetPoints σ φ :=
  let s1 :=
    if opt_truthy setpoint_proposal.charge then
      { s with charge_setpoint := setpoint_proposal.charge.getD 0 }
    else s
  let s2 :=
    if opt_truthy setpoint_proposal.discharge then
      { s1 with discharge_setpoint := setpoint_proposal.discharge.getD 0 }
    else s1
  if opt_truthy setpoint_proposal.universal then
    { s2 with universal_setpoint := setpoint_proposal.universal.getD 0 }
  else s2

/-- Embeds `PeriodicEvents` from `src/time_tools/schedulers.py`; datetimes
and timedeltas are integers (minutes). -/
structure PeriodicEvents where
  start_dt : ℤ
  period : ℤ
  next_periodic_event : ℤ
  deriving DecidableEq, Repr

/-- `PeriodicEvents.__post_init__`: the first due instant is `start_dt`. -/
def PeriodicEvents.make (start_dt period : ℤ) : PeriodicEvents :=
  ⟨start_dt, period, start_dt⟩

/-- `PeriodicEvents.is_due` (lines 55-69 of `src/time_tools/schedulers.py`):
fires when `dt` has reached the stored next-due instant, and on firing the
stored instant becomes `dt + period`. -/
def PeriodicEvents.is_due (pe : PeriodicEvents) (dt : ℤ) : Bool × PeriodicEvents :=
  if dt ≥ pe.next_periodic_event then
    (true, { pe with next_periodic_event := dt + pe.period })
  else
    (false, pe)

/-- The historical net-demand tracking state of `Dispatcher`
(`src/dispatchers/dispatchers.py`); both fields are initialised to `0.0`. -/
structure HistoricalDemand where
  historical_peak_demand : ℚ
  historical_min_demand : ℚ
  deriving DecidableEq, Repr

/-- `Dispatcher.update_historical_net_demand` (lines 94-96 of
`src/dispatchers/dispatchers.py`).  The two assignments run in order, so the
`min` on the second line reads the peak field already updated by the first
line — the source takes `min(net_demand, self.historical_peak_demand)`, not
the previous `historical_min_demand`. -/
def update_historical_net_demand (s : HistoricalDemand) (net_demand : ℚ) :
    HistoricalDemand :=
  let peak := max net_demand s.historical_peak_demand
  { historical_peak_demand := peak,
    historical_min_demand := min net_demand peak }

/-- `Dispatcher.scheduled_dispatch_proposal` (lines 76-83 of
`src/dispatchers/dispatchers.py`): the primary scheduled proposal has its
discharge capped at the metered demand at `dt`. -/
def capped_primary_proposal (demand : ℚ) (proposal : Dispatch) : Dispatch :=
  { proposal with discharge := min demand proposal.discharge }

/-- The proposal-selection logic of `StorageDispatcher.dispatch`
(lines 127-151 of `src/dispatchers/dispatchers.py`): the secondary scheduled
proposal is consulted only when a secondary schedule exists and the primary
proposal nets to zero; the setpoint-derived proposal only when setpoints
exist and the surviving scheduled proposal nets to zero.  `none` models an
absent (falsy) controller member. -/
def select_dispatch_proposal (primary : Dispatch) (secondary : Option Dispatch)
    (setpoint_proposal : Option Dispatch) : Dispatch :=
  let p1 :=
    match secondary with
    | some s => if primary.no_dispatch then s else primary
    | none => primary
  match setpoint_proposal with
  | some sp => if p1.no_dispatch then sp else p1
  | none => p1

end LoadFlex

namespace LoadFlex

/-- C1: `Dispatch.validate` raises exactly on ill-formed dispatches: it
returns normally if and only if charge and discharge are non-negative and at
least one of them is zero; in every other case it raises a `ValueError`. -/
theorem dispatch_validate_ok_iff (d : Dispatch) :
    (d.validate = Except.ok () ↔
      0 ≤ d.charge ∧ 0 ≤ d.discharge ∧ min d.charge d.discharge = 0) ∧
    (¬ (0 ≤ d.charge ∧ 0 ≤ d.discharge ∧ min d.charge d.discharge = 0) →
      ∃ msg, d.validate = Except.error msg) := by
  constructor
  · unfold Dispatch.validate
    split
    · rename_i h
      constructor
      · intro hok; cases hok
      · rintro ⟨hc, hd, -⟩
        rcases h with h | h
        · exact absurd hc (not_le.mpr h)
        · exact absurd hd (not_le.mpr h)
    · rename_i h
      push_neg at h
      split
      · rename_i hmin
        constructor
        · intro hok; cases hok
        · rintro ⟨-, -, hm⟩; exact absurd hm hmin
      · rename_i hmin
        push_neg at hmin
        simp only [true_iff]
        exact ⟨h.1, h.2, hmin⟩
  · intro h
    unfold Dispatch.validate
    split
    · exact ⟨_, rfl⟩
    · split
      · exact ⟨_, rfl⟩
      · rename_i h1 h2
        push_neg at h1 h2
        exact absurd ⟨h1.1, h1.2, h2⟩ h

/-- C2: for a proposal with non-negative charge and discharge,
`Battery.dispatch_request` returns the realized dispatch clipped to
`min(proposal, nominal capacity × Δt, availability)` with availability taken
on the pre-update state, then shifts `state_of_charge` by
`(η·charge − discharge)/storage_capacity`; the returned dispatch is the
clipped one, not the proposal. -/
theorem battery_dispatch_request_spec (b : Battery) (p : Dispatch)
    (dt : ℚ) (hc : 0 ≤ p.charge) (hd : 0 ≤ p.discharge) :
    (b.dispatch_request p dt).1.charge =
      min p.charge (min (b.nominal_charge_capacity * dt) b.available_storage) ∧
    (b.dispatch_request p dt).1.discharge =
      min p.discharge (min (b.nominal_discharge_capacity * dt) b.available_energy) ∧
    (b.dispatch_request p dt).2.state_of_charge =
      b.state_of_charge +
        (b.round_trip_efficiency * (b.dispatch_request p dt).1.charge -
          (b.dispatch_request p dt).1.discharge) / b.storage_capacity := by
  refine ⟨rfl, rfl, ?_⟩
  simp [Battery.dispatch_request, Battery.update_state]

/-- Witness for `battery_dispatch_request_spec` at a concrete battery and
proposal. -/
theorem battery_dispatch_request_spec_witness :
    ((Battery.mk 2 2 10 1 (1/2) 0).dispatch_request (Dispatch.mk 3 0) 1).1.charge =
      min (3 : ℚ) (min (2 * 1) (Battery.mk 2 2 10 1 (1/2) 0).available_storage) :=
  (battery_dispatch_request_spec (Battery.mk 2 2 10 1 (1/2) 0) (Dispatch.mk 3 0) 1
    (by norm_num) (by norm_num)).1

/-- The physical parameters of a battery are untouched by a dispatch step. -/
lemma dispatch_step_params (b : Battery) (x : Dispatch × ℚ) :
    (b.dispatch_step x).nominal_discharge_capacity = b.nominal_discharge_capacity ∧
    (b.dispatch_step x).nominal_charge_capacity = b.nominal_charge_capacity ∧
    (b.dispatch_step x).storage_capacity = b.storage_capacity ∧
    (b.dispatch_step x).round_trip_efficiency = b.round_trip_efficiency := by
  refine ⟨rfl, rfl, rfl, ?_⟩
  simp [Battery.dispatch_step, Battery.dispatch_request, Battery.update_state]

/-- One valid dispatch step keeps the state of charge inside `[0, 1]`. -/
lemma dispatch_step_soc_mem (b : Battery) (x : Dispatch × ℚ)
    (hcap : 0 < b.storage_capacity)
    (hη : 0 < b.round_trip_efficiency) (hη1 : b.round_trip_efficiency ≤ 1)
    (hncc : 0 ≤ b.nominal_charge_capacity) (hndc : 0 ≤ b.nominal_discharge_capacity)
    (hsoc0 : 0 ≤ b.state_of_charge) (hsoc1 : b.state_of_charge ≤ 1)
    (hxc : 0 ≤ x.1.charge) (hxd : 0 ≤ x.1.discharge) (hxt : 0 ≤ x.2) :
    0 ≤ (b.dispatch_step x).state_of_charge ∧ (b.dispatch_step x).state_of_charge ≤ 1 := by
  obtain ⟨p, dt⟩ := x
  simp only [Battery.dispatch_step, Battery.dispatch_request, Battery.update_state,
    Battery.available_storage, Battery.available_energy] at *
  set c := min p.charge
    (min (b.nominal_charge_capacity * dt) (b.storage_capacity * (1 - b.state_of_charge)))
    with hc_def
  set d := min p.discharge
    (min (b.nominal_discharge_capacity * dt) (b.state_of_charge * b.storage_capacity))
    with hd_def
  have hc0 : 0 ≤ c :=
    le_min hxc (le_min (mul_nonneg hncc hxt)
      (mul_nonneg hcap.le (by linarith)))
  have hd0 : 0 ≤ d :=
    le_min hxd (le_min (mul_nonneg hndc hxt)
      (mul_nonneg hsoc0 hcap.le))
  have hc_ub : c ≤ b.storage_capacity * (1 - b.state_of_charge) :=
    (min_le_right _ _).trans (min_le_right _ _)
  have hd_ub : d ≤ b.state_of_charge * b.storage_capacity :=
    (min_le_right _ _).trans (min_le_right _ _)
  have hηc : b.round_trip_efficiency * c ≤ c := by nlinarith
  have hηc0 : 0 ≤ b.round_trip_efficiency * c := mul_nonneg hη.le hc0
  constructor
  · have hlow : -(b.state_of_charge * b.storage_capacity) ≤
        b.round_trip_efficiency * c - d := by linarith
    have := (div_le_div_iff_of_pos_right hcap).mpr hlow
    rw [neg_div, mul_div_assoc, div_self hcap.ne.symm, mul_one] at this
    linarith
  · have hhigh : b.round_trip_efficiency * c - d ≤
        b.storage_capacity * (1 - b.state_of_charge) := by linarith
    have := (div_le_div_iff_of_pos_right hcap).mpr hhigh
    rw [mul_comm b.storage_capacity, mul_div_assoc, div_self hcap.ne.symm, mul_one] at this
    linarith

/-- C3: over any finite sequence of valid dispatch requests, the state of
charge of a well-formed battery stays inside `[0, 1]`. -/
theorem battery_run_soc_bounded (b : Battery) (l : List (Dispatch × ℚ))
    (hcap : 0 < b.storage_capacity)
    (hη : 0 < b.round_trip_efficiency) (hη1 : b.round_trip_efficiency ≤ 1)
    (hncc : 0 ≤ b.nominal_charge_capacity) (hndc : 0 ≤ b.nominal_discharge_capacity)
    (hsoc0 : 0 ≤ b.state_of_charge) (hsoc1 : b.state_of_charge ≤ 1)
    (hl : ∀ x ∈ l, 0 ≤ x.1.charge ∧ 0 ≤ x.1.discharge ∧ 0 ≤ x.2) :
    0 ≤ (b.run_dispatches l).state_of_charge ∧
      (b.run_dispatches l).state_of_charge ≤ 1 := by
  induction l generalizing b with
  | nil => exact ⟨hsoc0, hsoc1⟩
  | cons hd tl ih =>
    obtain ⟨hx1, hx2, hx3⟩ := hl hd (List.mem_cons_self hd tl)
    have hstep := dispatch_step_soc_mem b hd hcap hη hη1 hncc hndc hsoc0 hsoc1 hx1 hx2 hx3
    obtain ⟨e1, e2, e3, e4⟩ := dispatch_step_params b hd
    have := ih (b.dispatch_step hd)
      (by rw [e3]; exact hcap) (by rw [e4]; exact hη) (by rw [e4]; exact hη1)
      (by rw [e2]; exact hncc) (by rw [e1]; exact hndc)
      hstep.1 hstep.2
      (fun x hx => hl x (List.mem_cons_of_mem _ hx))
    simpa [Battery.run_dispatches] using this

/-- Witness for `battery_run_soc_bounded` on a concrete battery and a concrete
two-step run. -/
theorem battery_run_soc_bounded_witness :
    0 ≤ ((Battery.mk 2 2 10 1 (1/2) 0).run_dispatches
        [(Dispatch.mk 30 0, 1), (Dispatch.mk 0 30, 1)]).state_of_charge ∧
      ((Battery.mk 2 2 10 1 (1/2) 0).run_dispatches
        [(Dispatch.mk 30 0, 1), (Dispatch.mk 0 30, 1)]).state_of_charge ≤ 1 :=
  battery_run_soc_bounded (Battery.mk 2 2 10 1 (1/2) 0)
    [(Dispatch.mk 30 0, 1), (Dispatch.mk 0 30, 1)]
    (by norm_num) (by norm_num) (by norm_num) (by norm_num) (by norm_num)
    (by norm_num) (by norm_num) (by decide)

/-- C4 counterexample: on the demand array `[10, 8, 6, 4, 2]` with budget
`E = 6`, `peak_shave` does not return the exact-match threshold `6`, and the
area above the threshold it does return is `2`, not approximately `6`. -/
theorem peak_shave_boundary_counterexample :
    PeakShave.peak_shave [10, 8, 6, 4, 2] 6 ≠ 6 ∧
    area_above [10, 8, 6, 4, 2] (PeakShave.peak_shave [10, 8, 6, 4, 2] 6) = 2 := by
  have h : PeakShave.peak_shave [10, 8, 6, 4, 2] 6 = 8 := by
    norm_num [PeakShave.peak_shave, PeakShave.cumulative_peak_areas,
      PeakShave.peak_area_idx, searchsorted_left, cumsum, np_get,
      List.insertionSort, List.orderedInsert, List.countP, List.countP.go,
      List.getD, Int.toNat]
  rw [h]
  norm_num [area_above]

/-- C4 amended: on `[10, 8, 6, 4, 2]` with budget `E = 6`, `peak_shave`
returns the threshold `8` one step above the exact match (the search takes
the index strictly below the first cumulative area ≥ E), and the area above
that threshold is `2 ≤ 6`. -/
theorem peak_shave_boundary_amended :
    PeakShave.peak_shave [10, 8, 6, 4, 2] 6 = 8 ∧
    area_above [10, 8, 6, 4, 2] 8 = 2 := by
  constructor
  · norm_num [PeakShave.peak_shave, PeakShave.cumulative_peak_areas,
      PeakShave.peak_area_idx, searchsorted_left, cumsum, np_get,
      List.insertionSort, List.orderedInsert, List.countP, List.countP.go,
      List.getD, Int.toNat]
  · norm_num [area_above]

/-- C5: with a zero budget on `[10, 8, 6, 4, 2]`, `peak_shave` evaluates the
search index to `-1`, which numpy indexing wraps to the end of the descending
array, so it returns the window minimum `2` — not the peak `10` the
specification requires for `E ≤ 0`. -/
theorem peak_shave_zero_budget_eval :
    PeakShave.peak_shave [10, 8, 6, 4, 2] 0 = 2 ∧
    np_min [10, 8, 6, 4, 2] = 2 ∧ np_max [10, 8, 6, 4, 2] = 10 := by
  refine ⟨?_, by norm_num [np_min], by norm_num [np_max]⟩
  norm_num [PeakShave.peak_shave, PeakShave.cumulative_peak_areas,
    PeakShave.peak_area_idx, searchsorted_left, cumsum, np_get,
    List.insertionSort, List.orderedInsert, List.countP, List.countP.go,
    List.getD, Int.toNat]

/-- C6: for a non-empty demand array whose cap area is positive,
`TOUShiftingCalculator.calculate_setpoint` at budget `cap_area` falls back to
the plain peak-shave search, and at budget `0` returns the window maximum. -/
theorem tou_calculate_setpoint_idempotence (arr : List ℚ) (h : arr ≠ [])
    (hpos : 0 < TOUShiftingCalculator.cap_area arr) :
    TOUShiftingCalculator.calculate_setpoint arr (TOUShiftingCalculator.cap_area arr) =
      PeakShave.peak_shave arr (TOUShiftingCalculator.cap_area arr) ∧
    TOUShiftingCalculator.calculate_setpoint arr 0 = np_max arr := by
  constructor
  · simp [TOUShiftingCalculator.calculate_setpoint, hpos.ne']
  · simp [TOUShiftingCalculator.calculate_setpoint]

/-- Concrete evaluation of the cap area of the demonstration window. -/
lemma cap_area_demo_eval :
    TOUShiftingCalculator.cap_area [10, 8, 6, 4, 2] = 20 := by
  norm_num [TOUShiftingCalculator.cap_area, np_min]

/-- Witness for `tou_calculate_setpoint_idempotence` on `[10, 8, 6, 4, 2]`,
whose cap area is `20`. -/
theorem tou_calculate_setpoint_idempotence_witness :
    TOUShiftingCalculator.calculate_setpoint [10, 8, 6, 4, 2]
        (TOUShiftingCalculator.cap_area [10, 8, 6, 4, 2]) =
      PeakShave.peak_shave [10, 8, 6, 4, 2]
        (TOUShiftingCalculator.cap_area [10, 8, 6, 4, 2]) ∧
    TOUShiftingCalculator.calculate_setpoint [10, 8, 6, 4, 2] 0 =
      np_max [10, 8, 6, 4, 2] :=
  tou_calculate_setpoint_idempotence [10, 8, 6, 4, 2] (by simp)
    (by simp [cap_area_demo_eval])

/-- C7 counterexample: a proposal whose charge slot is set to `0.0` is not
committed — Python truthiness treats `0.0` like an unset slot, so the
previous charge setpoint `5` survives instead of being assigned `0`. -/
theorem set_setpoints_zero_counterexample :
    ((SetPoints.mk () () 5 5 5 : SetPoints Unit Unit).set_setpoints
        (SetPointProposal.mk none (some 0) none)).charge_setpoint = 5 ∧
    ((SetPoints.mk () () 5 5 5 : SetPoints Unit Unit).set_setpoints
        (SetPointProposal.mk none (some 0) none)).charge_setpoint ≠ 0 := by
  norm_num [SetPoints.set_setpoints, opt_truthy]

/-- Field-by-field characterization of `set_setpoints`. -/
lemma set_setpoints_fields {σ φ : Type} (s : SetPoints σ φ)
    (p : SetPointProposal) :
    (s.set_setpoints p).charge_setpoint =
      (if opt_truthy p.charge then p.charge.getD 0 else s.charge_setpoint) ∧
    (s.set_setpoints p).discharge_setpoint =
      (if opt_truthy p.discharge then p.discharge.getD 0 else s.discharge_setpoint) ∧
    (s.set_setpoints p).universal_setpoint =
      (if opt_truthy p.universal then p.universal.getD 0 else s.universal_setpoint) ∧
    (s.set_setpoints p).setter_schedule = s.setter_schedule ∧
    (s.set_setpoints p).forecasters = s.forecasters := by
  unfold SetPoints.set_setpoints
  refine ⟨?_, ?_, ?_, ?_, ?_⟩ <;> (repeat' split) <;> rfl

/-- C7 amended: `set_setpoints` commits a slot exactly when the proposal
slot is set to a non-zero value; a slot that is unset (`None`) or set to
`0.0` keeps its previous value, and no other field of the state changes. -/
theorem set_setpoints_commit_rule {σ φ : Type} (s : SetPoints σ φ)
    (p : SetPointProposal) :
    (∀ c, p.charge = some c → c ≠ 0 →
      (s.set_setpoints p).charge_setpoint = c) ∧
    (p.charge = none ∨ p.charge = some 0 →
      (s.set_setpoints p).charge_setpoint = s.charge_setpoint) ∧
    (∀ c, p.discharge = some c → c ≠ 0 →
      (s.set_setpoints p).discharge_setpoint = c) ∧
    (p.discharge = none ∨ p.discharge = some 0 →
      (s.set_setpoints p).discharge_setpoint = s.discharge_setpoint) ∧
    (∀ c, p.universal = some c → c ≠ 0 →
      (s.set_setpoints p).universal_setpoint = c) ∧
    (p.universal = none ∨ p.universal = some 0 →
      (s.set_setpoints p).universal_setpoint = s.universal_setpoint) ∧
    (s.set_setpoints p).setter_schedule = s.setter_schedule ∧
    (s.set_setpoints p).forecasters = s.forecasters := by
  obtain ⟨f1, f2, f3, f4, f5⟩ := set_setpoints_fields s p
  refine ⟨?_, ?_, ?_, ?_, ?_, ?_, f4, f5⟩
  · intro v hv hv0
    rw [f1, hv]
    simp [opt_truthy, hv0]
  · rintro (hv | hv) <;> rw [f1, hv] <;> simp [opt_truthy]
  · intro v hv hv0
    rw [f2, hv]
    simp [opt_truthy, hv0]
  · rintro (hv | hv) <;> rw [f2, hv] <;> simp [opt_truthy]
  · intro v hv hv0
    rw [f3, hv]
    simp [opt_truthy, hv0]
  · rintro (hv | hv) <;> rw [f3, hv] <;> simp [opt_truthy]

/-- Witness for `set_setpoints_commit_rule`: a non-zero charge proposal is
committed. -/
theorem set_setpoints_commit_rule_witness :
    ((SetPoints.mk () () 5 5 5 : SetPoints Unit Unit).set_setpoints
        (SetPointProposal.mk none (some 7) (some 0))).charge_setpoint = 7 :=
  (set_setpoints_commit_rule (SetPoints.mk () () 5 5 5)
      (SetPointProposal.mk none (some 7) (some 0))).1 7 rfl (by simp)

/-- C8 counterexample: querying the rule (start `0`, period `10`) at `t = 5`
fires, but the stored next-due instant becomes `t + period = 15`, not
`next_due + period = 10` as the claim states. -/
theorem periodic_is_due_counterexample :
    ((PeriodicEvents.make 0 10).is_due 5).1 = true ∧
    ((PeriodicEvents.make 0 10).is_due 5).2.next_periodic_event = 15 ∧
    ((PeriodicEvents.make 0 10).is_due 5).2.next_periodic_event ≠
      (PeriodicEvents.make 0 10).next_periodic_event + (PeriodicEvents.make 0 10).period := by
  refine ⟨rfl, rfl, ?_⟩
  decide

/-- C8 amended: `is_due` fires exactly when `t` has reached the stored
next-due instant; on firing the stored instant becomes `t + period`, and on
a non-firing query the state is unchanged. -/
theorem periodic_is_due_spec (pe : PeriodicEvents) (dt : ℤ) :
    ((pe.is_due dt).1 = true ↔ pe.next_periodic_event ≤ dt) ∧
    (pe.is_due dt).2 =
      (if pe.next_periodic_event ≤ dt then
        { pe with next_periodic_event := dt + pe.period }
      else pe) := by
  by_cases h : pe.next_periodic_event ≤ dt <;>
    simp [PeriodicEvents.is_due, h]

/-- C9: evaluating `update_historical_net_demand` on the net-demand sequence
`[-5, 10]` from the initial state: the peak field is correctly `10`, but the
min field ends at `10` even though `-5` was seen — the second assignment
reads the freshly-updated peak field instead of the min field, so
`historical_min_demand` is always the latest net demand, not the running
minimum. -/
theorem update_historical_min_demand_eval :
    (update_historical_net_demand
        (update_historical_net_demand ⟨0, 0⟩ (-5)) 10).historical_peak_demand = 10 ∧
    (update_historical_net_demand
        (update_historical_net_demand ⟨0, 0⟩ (-5)) 10).historical_min_demand = 10 ∧
    ¬ (update_historical_net_demand
        (update_historical_net_demand ⟨0, 0⟩ (-5)) 10).historical_min_demand ≤ -5 := by
  norm_num [update_historical_net_demand, max_def, min_def]

/-- C10: dispatch-source precedence in `StorageDispatcher.dispatch`: the
demand-capped primary scheduled proposal wins whenever its net value is
non-zero; the secondary scheduled proposal is used only when the primary
nets to zero; the setpoint-derived proposal is used only when every
scheduled proposal nets to zero, so setpoints never influence a timestep
with a non-trivial scheduled dispatch. -/
theorem storage_dispatch_precedence (demand : ℚ) (p : Dispatch)
    (sec : Option Dispatch) (sp : Dispatch) :
    (¬ (capped_primary_proposal demand p).no_dispatch →
      select_dispatch_proposal (capped_primary_proposal demand p) sec (some sp) =
        capped_primary_proposal demand p) ∧
    (∀ s, (capped_primary_proposal demand p).no_dispatch → sec = some s →
      ¬ s.no_dispatch →
      select_dispatch_proposal (capped_primary_proposal demand p) sec (some sp) = s) ∧
    ((capped_primary_proposal demand p).no_dispatch →
      (sec = none ∨ ∃ s, sec = some s ∧ s.no_dispatch) →
      select_dispatch_proposal (capped_primary_proposal demand p) sec (some sp) = sp) := by
  refine ⟨?_, ?_, ?_⟩
  · intro h
    cases sec with
    | none => simp [select_dispatch_proposal, h]
    | some s => simp [select_dispatch_proposal, h]
  · intro s h hsec hs
    subst hsec
    simp [select_dispatch_proposal, h, hs]
  · intro h hsec
    rcases hsec with rfl | ⟨s, rfl, hs⟩
    · simp [select_dispatch_proposal, h]
    · simp [select_dispatch_proposal, h, hs]

/-- Witness for `storage_dispatch_precedence`: with a non-trivial primary
scheduled proposal, the setpoint proposal is ignored. -/
theorem storage_dispatch_precedence_witness :
    select_dispatch_proposal (capped_primary_proposal 3 (Dispatch.mk 0 3))
        (some (Dispatch.mk 1 0)) (some (Dispatch.mk 2 0)) =
      capped_primary_proposal 3 (Dispatch.mk 0 3) :=
  (storage_dispatch_precedence 3 (Dispatch.mk 0 3) (some (Dispatch.mk 1 0))
      (Dispatch.mk 2 0)).1
    (by simp [capped_primary_proposal, Dispatch.no_dispatch, Dispatch.net_value])

end LoadFlex
